import Mathlib

/-!
Verification development for the litebike proxy.

Rust byte buffers (`&[u8]`, `Vec<u8>`) are modelled as `List Nat` of byte
values, and Rust `str`/`String` values as `List Nat` of Unicode code points
(for ASCII data the two coincide).  Pure functions of the source are
translated to Lean functions; the handlers' network effects (upstream dials,
relaying) are captured by an explicit effect record, with the upstream
connector given to each handler as an oracle, mirroring how the Rust
handlers call `connect_to_target` and observe only its `io::Result`.
-/

namespace LiteBike

set_option maxRecDepth 1000000

/-- Code points of a Lean string literal; used to embed Rust string and
byte-string literals (all literals in the sources are ASCII). -/
def litStr (s : String) : List Nat :=
  s.data.map Char.toNat

/-- Whether a byte is a UTF-8 continuation byte in the given inclusive range. -/
def contRange (lo hi c : Nat) : Bool :=
  decide (lo ≤ c) && decide (c ≤ hi)

/-- Worker for `utf8DecodeOpt`.  The fuel argument only serves
termination: every code point consumes at least one input byte, so with
fuel at least the input length the recursion never exhausts it. -/
def utf8DecodeAux : Nat → List Nat → Option (List Nat)
  | _, [] => some []
  | 0, _ :: _ => none
  | fuel + 1, b :: rest =>
    if b < 0x80 then (utf8DecodeAux fuel rest).map (b :: ·)
    else if contRange 0xC2 0xDF b then
      if 1 ≤ rest.length ∧ contRange 0x80 0xBF (rest.getD 0 0) then
        (utf8DecodeAux fuel (rest.drop 1)).map
          (((b - 0xC0) * 64 + (rest.getD 0 0 - 0x80)) :: ·)
      else none
    else if contRange 0xE0 0xEF b then
      if 2 ≤ rest.length ∧
          contRange (if b = 0xE0 then 0xA0 else 0x80)
            (if b = 0xED then 0x9F else 0xBF) (rest.getD 0 0) ∧
          contRange 0x80 0xBF (rest.getD 1 0) then
        (utf8DecodeAux fuel (rest.drop 2)).map
          (((b - 0xE0) * 4096 + (rest.getD 0 0 - 0x80) * 64
            + (rest.getD 1 0 - 0x80)) :: ·)
      else none
    else if contRange 0xF0 0xF4 b then
      if 3 ≤ rest.length ∧
          contRange (if b = 0xF0 then 0x90 else 0x80)
            (if b = 0xF4 then 0x8F else 0xBF) (rest.getD 0 0) ∧
          contRange 0x80 0xBF (rest.getD 1 0) ∧
          contRange 0x80 0xBF (rest.getD 2 0) then
        (utf8DecodeAux fuel (rest.drop 3)).map
          (((b - 0xF0) * 262144 + (rest.getD 0 0 - 0x80) * 4096
            + (rest.getD 1 0 - 0x80) * 64 + (rest.getD 2 0 - 0x80)) :: ·)
      else none
    else none

/-- Strict UTF-8 decoding of a byte list into code points, `none` on any
invalid sequence; this is the validity notion of Rust `str::from_utf8`
(RFC 3629 table: no overlongs, no surrogates, max U+10FFFF). -/
def utf8DecodeOpt (l : List Nat) : Option (List Nat) :=
  utf8DecodeAux l.length l

/-- Validity test corresponding to `str::from_utf8(..).is_ok()`. -/
def utf8Valid (l : List Nat) : Bool :=
  (utf8DecodeOpt l).isSome

/-- Protocol tags of `patricia_detector_simd::Protocol` as used by the
scalar detector (the variants the scalar path can produce). -/
inductive Protocol
  | Socks5
  | Tls
  | Http
  | ProxyProtocol
  | Http2
  | Unknown
deriving DecidableEq, Repr

/-- The eight HTTP method prefixes checked by the detectors
(`detect_scalar` in patricia_detector_simd_arm64.rs and
`detect_protocol_simple` in test_unified_port.rs use the same list). -/
def httpMethods : List (List Nat) :=
  [litStr "GET ", litStr "POST ", litStr "PUT ", litStr "DELETE ",
   litStr "HEAD ", litStr "OPTIONS ", litStr "CONNECT ", litStr "PATCH "]

/-- Embedding of `Arm64SimdDetector::detect_scalar`
(src/patricia_detector_simd_arm64.rs lines 121-155): SOCKS5 on first byte
0x05, TLS on 0x16 0x03 with length at least 3, then the eight HTTP method
prefixes, then `"PROXY "`, then the HTTP/2 preface prefix. -/
def detect_scalar (buffer : List Nat) : Protocol :=
  if buffer = [] then Protocol.Unknown
  else if buffer.headD 0 = 0x05 then Protocol.Socks5
  else if 3 ≤ buffer.length ∧ buffer.headD 0 = 0x16 ∧ buffer.getD 1 0 = 0x03 then
    Protocol.Tls
  else if ∃ m ∈ httpMethods, m.length ≤ buffer.length ∧ m <+: buffer then
    Protocol.Http
  else if 6 ≤ buffer.length ∧ litStr "PROXY " <+: buffer then
    Protocol.ProxyProtocol
  else if 14 ≤ buffer.length ∧ litStr "PRI * HTTP/2.0" <+: buffer then
    Protocol.Http2
  else Protocol.Unknown

/-- Embedding of `detect_protocol_simple` (test_unified_port.rs lines
62-96), which returns a protocol name string: SOCKS5 by first byte, then —
on UTF-8 text only — UPnP by `M-SEARCH`/`NOTIFY` substring, the eight HTTP
methods refined by `/proxy.pac`, `/wpad.dat` and `.local` substrings, and
finally the TLS byte test, else "unknown". -/
def detect_protocol_simple (data : List Nat) : String :=
  if 2 ≤ data.length ∧ data.headD 0 = 0x05 then "socks5"
  else
    let tailCheck : String :=
      if 3 ≤ data.length ∧ data.headD 0 = 0x16 ∧ data.getD 1 0 = 0x03 then "tls"
      else "unknown"
    match utf8DecodeOpt data with
    | some text =>
      if litStr "M-SEARCH" <:+: text ∨ litStr "NOTIFY" <:+: text then
        "upnp"
      else if ∃ m ∈ httpMethods, m <+: text then
        if litStr "/proxy.pac" <:+: text then "pac"
        else if litStr "/wpad.dat" <:+: text then "wpad"
        else if litStr ".local" <:+: text then "bonjour"
        else "http"
      else tailCheck
    | none => tailCheck

/-- Unicode `White_Space` test of Rust `char::is_whitespace`, on code
points (ASCII controls and space plus the non-ASCII whitespace points). -/
def isRustWs (c : Nat) : Bool :=
  c == 9 || c == 10 || c == 11 || c == 12 || c == 13 || c == 32 ||
  c == 0x85 || c == 0xA0 || c == 0x1680 ||
  (decide (0x2000 ≤ c) && decide (c ≤ 0x200A)) ||
  c == 0x2028 || c == 0x2029 || c == 0x202F || c == 0x205F || c == 0x3000

/-- Single-pass worker for `splitWs`; `acc` holds the reversed current
word. -/
def splitWsAux : List Nat → List Nat → List (List Nat)
  | [], acc => if acc = [] then [] else [acc.reverse]
  | c :: t, acc =>
    if isRustWs c then
      if acc = [] then splitWsAux t [] else acc.reverse :: splitWsAux t []
    else splitWsAux t (c :: acc)

/-- Rust `str::split_whitespace`: maximal runs of non-whitespace code
points, with whitespace runs discarded. -/
def splitWs (l : List Nat) : List (List Nat) :=
  splitWsAux l []

/-- Rust `str::lines`: split on `\n`, strip one trailing `\r` from each
line, and drop the empty piece a trailing terminator would create. -/
def rustLines (s : List Nat) : List (List Nat) :=
  if s = [] then []
  else
    let parts := s.splitOn 10
    let parts2 := if parts.getLast? = some [] then parts.dropLast else parts
    parts2.map (fun l => if l.getLast? = some 13 then l.dropLast else l)

/-- ASCII lowercasing of one code point; Rust `str::to_lowercase` agrees
with this on the ASCII-only strings the handlers compare against. -/
def asciiLower (c : Nat) : Nat :=
  if 65 ≤ c ∧ c ≤ 90 then c + 32 else c

/-- Lowercase an entire string (see `asciiLower`). -/
def toLowerAscii (s : List Nat) : List Nat :=
  s.map asciiLower

/-- Rust `str::trim`: remove leading and trailing whitespace. -/
def trimWs (s : List Nat) : List Nat :=
  ((s.dropWhile isRustWs).reverse.dropWhile isRustWs).reverse

/-- Decimal rendering of a natural, as the code points of Rust's
`Display` for integers. -/
def natDecimal (n : Nat) : List Nat :=
  (Nat.toDigits 10 n).map Char.toNat

/-- Lowercase hexadecimal rendering of a natural without leading zeros. -/
def natHex (n : Nat) : List Nat :=
  (Nat.toDigits 16 n).map Char.toNat

/-- Rust `String::from_utf8_lossy`: decode UTF-8, substituting U+FFFD for
each maximal subpart of an ill-formed sequence. -/
def utf8LossyDecode : List Nat → List Nat
  | [] => []
  | b :: rest =>
    if b < 0x80 then b :: utf8LossyDecode rest
    else if contRange 0xC2 0xDF b then
      match rest with
      | c :: r2 =>
        if contRange 0x80 0xBF c then
          ((b - 0xC0) * 64 + (c - 0x80)) :: utf8LossyDecode r2
        else 0xFFFD :: utf8LossyDecode (c :: r2)
      | [] => [0xFFFD]
    else if contRange 0xE0 0xEF b then
      match rest with
      | c :: r2 =>
        if contRange (if b = 0xE0 then 0xA0 else 0x80)
            (if b = 0xED then 0x9F else 0xBF) c then
          match r2 with
          | d :: r3 =>
            if contRange 0x80 0xBF d then
              ((b - 0xE0) * 4096 + (c - 0x80) * 64 + (d - 0x80)) ::
                utf8LossyDecode r3
            else 0xFFFD :: utf8LossyDecode (d :: r3)
          | [] => [0xFFFD]
        else 0xFFFD :: utf8LossyDecode (c :: r2)
      | [] => [0xFFFD]
    else if contRange 0xF0 0xF4 b then
      match rest with
      | c :: r2 =>
        if contRange (if b = 0xF0 then 0x90 else 0x80)
            (if b = 0xF4 then 0x8F else 0xBF) c then
          match r2 with
          | d :: r3 =>
            if contRange 0x80 0xBF d then
              match r3 with
              | e :: r4 =>
                if contRange 0x80 0xBF e then
                  ((b - 0xF0) * 262144 + (c - 0x80) * 4096 + (d - 0x80) * 64
                    + (e - 0x80)) :: utf8LossyDecode r4
                else 0xFFFD :: utf8LossyDecode (e :: r4)
              | [] => [0xFFFD]
            else 0xFFFD :: utf8LossyDecode (d :: r3)
          | [] => [0xFFFD]
        else 0xFFFD :: utf8LossyDecode (c :: r2)
      | [] => [0xFFFD]
    else 0xFFFD :: utf8LossyDecode rest
termination_by l => l.length
decreasing_by all_goals simp +arith

/-- Model of `AsyncReadExt::read_exact` over an explicit byte stream:
`some (taken, remaining)` when enough bytes are available, `none` for the
`UnexpectedEof` failure. -/
def readExact (n : Nat) (s : List Nat) : Option (List Nat × List Nat) :=
  if n ≤ s.length then some (s.take n, s.drop n) else none

/-- The `io::ErrorKind` values the embedded code distinguishes. -/
inductive IoErrKind
  | invalidInput
  | invalidData
  | notFound
  | timedOut
  | unexpectedEof
  | connRefused
  | hostUnreachable
  | netUnreachable
  | otherErr
deriving DecidableEq, Repr

/-- Result of running a handler (`io::Result<()>`). -/
inductive RunResult
  | ok
  | err (e : IoErrKind)
deriving DecidableEq, Repr

/-- Local bind address of an upstream socket (`TcpStream::local_addr`),
as used to build the SOCKS5 success reply: 4 or 16 address octets plus a
port. -/
inductive LocalAddr
  | v4 (octets : List Nat) (port : Nat)
  | v6 (octets : List Nat) (port : Nat)
deriving DecidableEq, Repr

/-- Observable effects of one handler run: chunks written to the client,
chunks written to the upstream, upstream targets dialled (in order),
whether a bidirectional relay was entered, and the handler's result. -/
structure Effects where
  writes : List (List Nat)
  upWrites : List (List Nat)
  dials : List (List Nat)
  relayed : Bool
  result : RunResult
deriving DecidableEq, Repr

/-- Effects of a handler that returned without doing anything visible. -/
def noEffects : Effects :=
  ⟨[], [], [], false, RunResult.ok⟩

/-- A dial oracle abstracts `connect_to_target`: for a target string it
either yields the local bind address of the new upstream socket or the
`io::ErrorKind` of the failure. -/
def DialOracle : Type :=
  List Nat → Except IoErrKind LocalAddr

/-- Big-endian bytes of a 16-bit value (`u16::to_be_bytes`). -/
def portBytes (p : Nat) : List Nat :=
  [p / 256 % 256, p % 256]

/-- The SOCKS5 success reply `05 00 00 ATYP BND.ADDR BND.PORT` built from
the upstream socket's local address (main-simple.rs lines 162-171). -/
def socksSuccessReply (la : LocalAddr) : List Nat :=
  match la with
  | LocalAddr.v4 o p => [5, 0, 0, 1] ++ o ++ portBytes p
  | LocalAddr.v6 o p => [5, 0, 0, 4] ++ o ++ portBytes p

/-- Group a byte list into big-endian 16-bit segments. -/
def segsOfBytes : List Nat → List Nat
  | a :: b :: t => (a * 256 + b) :: segsOfBytes t
  | _ => []

/-- Concatenate pieces with a separator. -/
def joinSep (sep : List Nat) : List (List Nat) → List Nat
  | [] => []
  | [x] => x
  | x :: xs => x ++ sep ++ joinSep sep xs

/-- Start and length of the longest (earliest on ties) run of zero
segments, as found by the zero-compression scan of the std `Ipv6Addr`
formatter. -/
def bestZeroRun (segs : List Nat) : Nat × Nat :=
  (List.range segs.length).foldl
    (fun best i =>
      let len := ((segs.drop i).takeWhile (fun s => s == 0)).length
      if best.2 < len then (i, len) else best) (0, 0)

/-- Rendering of a 16-byte IPv6 address by the std `Display` instance:
`::` / `::1` / `::ffff:a.b.c.d` special cases, otherwise hex groups with
the longest zero run (of length at least 2) compressed.  No claim in this
development depends on this rendering; it only feeds dial targets. -/
def ipv6Display (bytes : List Nat) : List Nat :=
  let segs := segsOfBytes bytes
  if segs = [0, 0, 0, 0, 0, 0, 0, 0] then litStr "::"
  else if segs = [0, 0, 0, 0, 0, 0, 0, 1] then litStr "::1"
  else if segs.take 6 = [0, 0, 0, 0, 0, 0xFFFF] then
    litStr "::ffff:" ++ natDecimal (segs.getD 6 0 / 256) ++ [46]
      ++ natDecimal (segs.getD 6 0 % 256) ++ [46]
      ++ natDecimal (segs.getD 7 0 / 256) ++ [46]
      ++ natDecimal (segs.getD 7 0 % 256)
  else
    let zr := bestZeroRun segs
    if zr.2 < 2 then joinSep [58] (segs.map natHex)
    else
      joinSep [58] ((segs.take zr.1).map natHex) ++ [58, 58] ++
        joinSep [58] ((segs.drop (zr.1 + zr.2)).map natHex)

/-- Embedding of `read_socks_address` (main-simple.rs lines 184-220):
reads the `DST.ADDR`/`DST.PORT` of a SOCKS5 request according to `ATYP`
and formats the target string; unknown `ATYP` is `InvalidInput`. -/
def read_socks_address (atyp : Nat) (s : List Nat) :
    Except IoErrKind (List Nat × List Nat) :=
  if atyp = 1 then
    match readExact 6 s with
    | none => Except.error IoErrKind.unexpectedEof
    | some (buf, s2) =>
      Except.ok (natDecimal (buf.getD 0 0) ++ [46] ++ natDecimal (buf.getD 1 0)
        ++ [46] ++ natDecimal (buf.getD 2 0) ++ [46] ++ natDecimal (buf.getD 3 0)
        ++ [58] ++ natDecimal (buf.getD 4 0 * 256 + buf.getD 5 0), s2)
  else if atyp = 3 then
    match readExact 1 s with
    | none => Except.error IoErrKind.unexpectedEof
    | some (lenb, s2) =>
      match readExact (lenb.getD 0 0) s2 with
      | none => Except.error IoErrKind.unexpectedEof
      | some (domain, s3) =>
        match readExact 2 s3 with
        | none => Except.error IoErrKind.unexpectedEof
        | some (pb, s4) =>
          Except.ok (utf8LossyDecode domain ++ [58]
            ++ natDecimal (pb.getD 0 0 * 256 + pb.getD 1 0), s4)
  else if atyp = 4 then
    match readExact 18 s with
    | none => Except.error IoErrKind.unexpectedEof
    | some (buf, s2) =>
      Except.ok ([91] ++ ipv6Display (buf.take 16) ++ [93, 58]
        ++ natDecimal (buf.getD 16 0 * 256 + buf.getD 17 0), s2)
  else Except.error IoErrKind.invalidInput

/-- Embedding of `handle_socks5` (main-simple.rs lines 128-182; the
main-termux.rs copy is byte-identical).  `input` is the client byte
stream, `dial` abstracts `connect_to_target`.  A failed `read_exact`
(stream exhausted) is the `UnexpectedEof` error with no reply written. -/
def handle_socks5 (input : List Nat) (dial : DialOracle) : Effects :=
  match readExact 2 input with
  | none => { noEffects with result := RunResult.err IoErrKind.unexpectedEof }
  | some (hdr, s1) =>
    if hdr.getD 0 0 ≠ 5 then
      { noEffects with result := RunResult.err IoErrKind.invalidData }
    else
      match readExact (hdr.getD 1 0) s1 with
      | none => { noEffects with result := RunResult.err IoErrKind.unexpectedEof }
      | some (methods, s2) =>
        if ¬ 0 ∈ methods then
          { noEffects with
            writes := [[5, 0xFF]],
            result := RunResult.err IoErrKind.invalidData }
        else
          match readExact 4 s2 with
          | none =>
            { noEffects with
              writes := [[5, 0]],
              result := RunResult.err IoErrKind.unexpectedEof }
          | some (req, s3) =>
            if req.getD 0 0 ≠ 5 ∨ req.getD 1 0 ≠ 1 then
              { noEffects with
                writes := [[5, 0], [5, 7, 0, 1, 0, 0, 0, 0, 0, 0]],
                result := RunResult.err IoErrKind.invalidData }
            else
              match read_socks_address (req.getD 3 0) s3 with
              | Except.error e =>
                { noEffects with writes := [[5, 0]], result := RunResult.err e }
              | Except.ok (target, _) =>
                match dial target with
                | Except.ok la =>
                  { writes := [[5, 0], socksSuccessReply la], upWrites := [],
                    dials := [target], relayed := true, result := RunResult.ok }
                | Except.error e =>
                  { writes := [[5, 0], [5, 1, 0, 1, 0, 0, 0, 0, 0, 0]],
                    upWrites := [], dials := [target], relayed := false,
                    result := RunResult.err e }

/-- Embedding of `handle_http` (main-simple.rs lines 85-125; the
main-termux.rs copy is byte-identical).  The single `read` into the 4 KiB
buffer is modelled as taking the first 4096 bytes of the client stream
(assuming the whole request is available, as the relevant claims do). -/
def handle_http (input : List Nat) (dial : DialOracle) : Effects :=
  let buf := input.take 4096
  if buf = [] then noEffects
  else
    let request_str := (utf8DecodeOpt buf).getD []
    if litStr "CONNECT " <+: request_str then
      match (splitWs request_str).getD 1 [] with
      | [] => noEffects
      | host =>
        let target := if 58 ∈ host then host else host ++ litStr ":443"
        match dial target with
        | Except.ok _ =>
          { writes := [litStr "HTTP/1.1 200 Connection established\x0d\x0a\x0d\x0a"],
            upWrites := [], dials := [target], relayed := true,
            result := RunResult.ok }
        | Except.error _ =>
          { writes := [litStr "HTTP/1.1 502 Bad Gateway\x0d\x0a\x0d\x0a"],
            upWrites := [], dials := [target], relayed := false,
            result := RunResult.ok }
    else
      match (rustLines request_str).find?
          (fun l => litStr "host:" <+: toLowerAscii l) with
      | some host_line =>
        match (host_line.splitOn 58).getD 1 [] with
        | [] => noEffects
        | hostRaw =>
          let host := trimWs hostRaw
          let target := host ++ litStr ":80"
          match dial target with
          | Except.ok _ =>
            { writes := [], upWrites := [buf], dials := [target],
              relayed := true, result := RunResult.ok }
          | Except.error _ =>
            { writes := [], upWrites := [], dials := [target],
              relayed := false, result := RunResult.ok }
      | none => noEffects

/-- The PAC document literal of `serve_simple_pac` (main-simple.rs lines
278-295), byte for byte including trailing spaces and indented blank
lines. -/
def pacContent : List Nat :=
  litStr "function FindProxyForURL(url, host) \x7b\n    // Simple PAC configuration\n    if (host == \"localhost\" || \n        host == \"127.0.0.1\" || \n        isInNet(host, \"127.0.0.0\", \"255.0.0.0\")) \x7b\n        return \"DIRECT\";\n    \x7d\n    \n    // Private network bypass\n    if (isInNet(host, \"10.0.0.0\", \"255.0.0.0\") ||\n        isInNet(host, \"172.16.0.0\", \"255.240.0.0\") ||\n        isInNet(host, \"192.168.0.0\", \"255.255.0.0\")) \x7b\n        return \"DIRECT\";\n    \x7d\n    \n    // Default proxy chain with fallback\n    return \"PROXY 127.0.0.1:8080; SOCKS5 127.0.0.1:1080; DIRECT\";\n\x7d"

/-- The full HTTP response `serve_simple_pac` writes: status line, the
`Content-Type`, `Content-Length` and `Cache-Control` headers, a blank
line, and the PAC body. -/
def pacResponse : List Nat :=
  litStr "HTTP/1.1 200 OK\x0d\x0aContent-Type: application/x-ns-proxy-autoconfig\x0d\x0aContent-Length: "
    ++ natDecimal pacContent.length
    ++ litStr "\x0d\x0aCache-Control: max-age=3600\x0d\x0a\x0d\x0a"
    ++ pacContent

/-- Embedding of `serve_simple_pac` (main-simple.rs lines 277-310): write
the PAC response and return. -/
def serve_simple_pac : Effects :=
  { noEffects with writes := [pacResponse] }

/-- Embedding of `handle_universal_connection` (main-simple.rs lines
223-274): peek up to 64 bytes, then dispatch — SOCKS5 by first byte 0x05,
UTF-8 text to PAC/WPAD service or the HTTP handler, non-text beginning
0x16 0x03 closed silently (TLS), anything else an `InvalidData` error.
The peeked prefix is the first 64 bytes of the stream (peek is
non-destructive, so the dispatched handler sees the full stream). -/
def handle_universal_connection (input : List Nat) (dial : DialOracle) :
    Effects :=
  let data := input.take 64
  if data.length = 0 then noEffects
  else if 2 ≤ data.length ∧ data.headD 0 = 0x05 then handle_socks5 input dial
  else
    match utf8DecodeOpt data with
    | some text =>
      if ∃ m ∈ httpMethods, m <+: text then
        if litStr "/proxy.pac" <:+: text then serve_simple_pac
        else if litStr "/wpad.dat" <:+: text then serve_simple_pac
        else handle_http input dial
      else handle_http input dial
    | none =>
      if 3 ≤ data.length ∧ data.headD 0 = 0x16 ∧ data.getD 1 0 = 0x03 then
        noEffects
      else { noEffects with result := RunResult.err IoErrKind.invalidData }

/-- ASCII decimal digit test. -/
def isDigitCp (c : Nat) : Bool :=
  decide (48 ≤ c) && decide (c ≤ 57)

/-- ASCII hexadecimal digit test (both cases). -/
def isHexCp (c : Nat) : Bool :=
  (decide (48 ≤ c) && decide (c ≤ 57)) ||
  (decide (97 ≤ c) && decide (c ≤ 102)) ||
  (decide (65 ≤ c) && decide (c ≤ 70))

/-- Numeric value of a hexadecimal digit code point. -/
def digitVal (c : Nat) : Nat :=
  if c < 58 then c - 48 else if 97 ≤ c then c - 87 else c - 55

/-- Value of a decimal digit string. -/
def decimalValue (s : List Nat) : Nat :=
  s.foldl (fun a c => a * 10 + (c - 48)) 0

/-- Value of a hexadecimal digit string. -/
def hexValue (s : List Nat) : Nat :=
  s.foldl (fun a c => a * 16 + digitVal c) 0

/-- Rust `str::parse::<u16>`: an optional leading `+`, then one or more
decimal digits, rejecting values above 65535. -/
def parseU16 (s : List Nat) : Option Nat :=
  let ds := if s.headD 0 = 43 then s.tail else s
  if ds = [] then none
  else if ds.all isDigitCp then
    let v := decimalValue ds
    if v < 65536 then some v else none
  else none

/-- One IPv4 octet as accepted by Rust `Ipv4Addr::from_str`: decimal
digits only, no sign, no leading zero, at most 255. -/
def parseOctet (s : List Nat) : Option Nat :=
  if s = [] then none
  else if ¬ s.all isDigitCp = true then none
  else if 1 < s.length ∧ s.headD 0 = 48 then none
  else
    let v := decimalValue s
    if v ≤ 255 then some v else none

/-- Rust `Ipv4Addr::from_str`: exactly four octets separated by dots. -/
def parseIpv4 (s : List Nat) : Option (List Nat) :=
  match s.splitOn 46 with
  | [a, b, c, d] =>
    match parseOctet a, parseOctet b, parseOctet c, parseOctet d with
    | some x, some y, some z, some w => some [x, y, z, w]
    | _, _, _, _ => none
  | _ => none

/-- One IPv6 group: one to four hexadecimal digits. -/
def parseH16 (s : List Nat) : Option Nat :=
  if s = [] ∨ 4 < s.length then none
  else if s.all isHexCp then some (hexValue s) else none

/-- Index of the first `::` in a string, if any. -/
def findDoubleColon : List Nat → Option Nat
  | a :: b :: t =>
    if a = 58 ∧ b = 58 then some 0 else (findDoubleColon (b :: t)).map (· + 1)
  | _ => none

/-- Parse colon-separated IPv6 group texts into 16-bit group values; when
`allowV4` the final piece may be an embedded dotted IPv4 contributing two
groups. -/
def parseGroups (parts : List (List Nat)) (allowV4 : Bool) :
    Option (List Nat) :=
  match parts with
  | [] => some []
  | [last] =>
    match parseH16 last with
    | some v => some [v]
    | none =>
      if allowV4 then
        match parseIpv4 last with
        | some [a, b, c, d] => some [a * 256 + b, c * 256 + d]
        | _ => none
      else none
  | p :: rest =>
    match parseH16 p, parseGroups rest allowV4 with
    | some v, some gs => some (v :: gs)
    | _, _ => none

/-- Rust `Ipv6Addr::from_str`: eight groups, or an at-most-once `::`
standing for the missing zero groups, with an optional trailing embedded
IPv4. -/
def parseIpv6 (s : List Nat) : Option (List Nat) :=
  match findDoubleColon s with
  | none =>
    match parseGroups (s.splitOn 58) true with
    | some gs => if gs.length = 8 then some gs else none
    | none => none
  | some i =>
    let left := s.take i
    let right := s.drop (i + 2)
    let lgroups := if left = [] then some [] else parseGroups (left.splitOn 58) false
    let rgroups := if right = [] then some [] else parseGroups (right.splitOn 58) true
    match lgroups, rgroups with
    | some lg, some rg =>
      if lg.length + rg.length ≤ 7 then
        some (lg ++ List.replicate (8 - lg.length - rg.length) 0 ++ rg)
      else none
    | _, _ => none

/-- An IP address value: four octets or eight 16-bit groups. -/
inductive IpAddr
  | v4 (octets : List Nat)
  | v6 (groups : List Nat)
deriving DecidableEq, Repr

/-- Rust `IpAddr::from_str`: try IPv4, then IPv6. -/
def parseIpAddr (s : List Nat) : Option IpAddr :=
  match parseIpv4 s with
  | some o => some (IpAddr.v4 o)
  | none =>
    match parseIpv6 s with
    | some g => some (IpAddr.v6 g)
    | none => none

/-- Rust `str::rsplit_once`: split at the last occurrence of `sep`
(`none` when `sep` does not occur). -/
def rsplit_once (sep : Nat) (s : List Nat) : Option (List Nat × List Nat) :=
  match s with
  | [] => none
  | c :: t =>
    match rsplit_once sep t with
    | some (pre, post) => some (c :: pre, post)
    | none => if c = sep then some ([], t) else none

/-- Environment for `connect_to_target`: the system resolver (result and
latency of `tokio::net::lookup_host`) and the TCP connector (result and
latency of `TcpStream::connect`), in milliseconds. -/
structure DnsEnv where
  lookup : List Nat → Except IoErrKind (List IpAddr)
  lookupMs : List Nat → Nat
  connect : IpAddr → Nat → Except IoErrKind Unit
  connectMs : IpAddr → Nat → Nat

/-- Embedding of `connect_to_target` (main-simple.rs lines 28-58): split
`host:port` at the last colon (`InvalidInput` when absent or the port is
not a `u16`), parse the host as an IP literal or else resolve
`host:80` via the system resolver (`NotFound` on an empty answer, first
address otherwise), then dial under the 5-second `CONNECT_TIMEOUT`
(`TimedOut` on expiry).  The resolver call itself is not placed under any
timeout, so `lookupMs` is never consulted.  On success the dialled
`(address, port)` pair stands for the connected `TcpStream`. -/
def connect_to_target (env : DnsEnv) (target : List Nat) :
    Except IoErrKind (IpAddr × Nat) :=
  match rsplit_once 58 target with
  | none => Except.error IoErrKind.invalidInput
  | some (host, portStr) =>
    match parseU16 portStr with
    | none => Except.error IoErrKind.invalidInput
    | some port =>
      let ipRes : Except IoErrKind IpAddr :=
        match parseIpAddr host with
        | some ip => Except.ok ip
        | none =>
          match env.lookup (host ++ litStr ":80") with
          | Except.error e => Except.error e
          | Except.ok addresses =>
            match addresses.head? with
            | some ip => Except.ok ip
            | none => Except.error IoErrKind.notFound
      match ipRes with
      | Except.error e => Except.error e
      | Except.ok ip =>
        if 5000 < env.connectMs ip port then Except.error IoErrKind.timedOut
        else
          match env.connect ip port with
          | Except.ok _ => Except.ok (ip, port)
          | Except.error e => Except.error e

/-- One event seen by a `tokio::io::copy` future: a data chunk it still
has to transfer, or an I/O fault that terminates it. -/
inductive CopyEvent
  | chunk (bytes : List Nat)
  | ioFault
deriving DecidableEq, Repr

/-- One relay direction: events not yet processed and bytes already
delivered to the opposite stream. -/
structure RelaySide where
  pending : List CopyEvent
  delivered : List Nat
deriving DecidableEq, Repr

/-- Joint state of the two directions of `relay_streams`: `a` is
client→remote, `b` is remote→client. -/
structure RelayState where
  a : RelaySide
  b : RelaySide
deriving DecidableEq, Repr

/-- Whether this direction's copy future completes on its next poll:
either it observes EOF (nothing pending) or an I/O error is next. -/
def sideDone (s : RelaySide) : Bool :=
  match s.pending with
  | [] => true
  | CopyEvent.ioFault :: _ => true
  | _ => false

/-- Transfer the next pending chunk of one direction. -/
def stepSide (s : RelaySide) : RelaySide :=
  match s.pending with
  | CopyEvent.chunk bs :: rest => { pending := rest, delivered := s.delivered ++ bs }
  | _ => s

/-- One scheduler decision inside the `tokio::select!` of `relay_streams`
(main-simple.rs lines 61-82, byte-identical in main-termux.rs): poll the
a→b copy (`true`) or the b→a copy (`false`).  When the polled copy
completes — EOF or error, the error being only logged — the `select!` arm
runs and the relay returns, dropping (cancelling) the other copy;
otherwise the polled copy moves its next chunk. -/
def relayStep (d : Bool) (st : RelayState) : RelayState × Bool :=
  if d then
    if sideDone st.a then (st, true) else ({ st with a := stepSide st.a }, false)
  else
    if sideDone st.b then (st, true) else ({ st with b := stepSide st.b }, false)

/-- Run `relay_streams` under an explicit poll schedule: `some final`
once either copy completes (the relay then returns `Ok(())`), `none`
while neither has completed within the schedule. -/
def relay_streams : List Bool → RelayState → Option RelayState
  | [], _ => none
  | d :: sched, st =>
    if (relayStep d st).2 then some (relayStep d st).1
    else relay_streams sched (relayStep d st).1

/-- Per-channel counters of `ChannelState` (proxy_channel.rs lines
61-68); `connections` is the `active_connections` figure reported by
`get_stats`. -/
structure ChannelState where
  active : Bool
  connections : Nat
  total_connections : Nat
  bytes_transferred : Nat
  errors : Nat
deriving DecidableEq, Repr

/-- Embedding of `ProxyChannel::handle_connection` (proxy_channel.rs
lines 160-192) on a registered channel's state; `peerAddrOk` tells
whether `stream.peer_addr()` succeeds.  The counters are incremented
first; a `peer_addr` failure returns `Err(ConnectionFailed)` immediately
— without reaching the decrement; otherwise `update_channel_stats`
records 1024 bytes and `connections` is decremented (guarded against
underflow) before returning `Ok`. -/
def handle_connection (st : ChannelState) (peerAddrOk : Bool) :
    ChannelState × Bool :=
  let st1 :=
    { st with
      connections := st.connections + 1,
      total_connections := st.total_connections + 1 }
  if ¬ peerAddrOk = true then (st1, false)
  else
    let st2 := { st1 with bytes_transferred := st1.bytes_transferred + 1024 }
    let st3 :=
      if st2.connections > 0 then
        { st2 with connections := st2.connections - 1 }
      else st2
    (st3, true)

/-- An HTTP CONNECT request of 4110 bytes — its header section does not
fit in the 4 KiB read of `handle_http` (the target line plus an `X:`
header padded with 4080 bytes of `a`). -/
def longReq : List Nat :=
  (litStr "CONNECT " ++ litStr "x:80"
      ++ 32 :: (litStr "HTTP/1.1\x0d\x0aX: " ++ List.replicate 4070 97))
    ++ (List.replicate 10 97 ++ litStr "\x0d\x0a\x0d\x0a")


/-! ### Theorems -/


theorem headD_append_of_ne_nil (p q : List Nat) (hp : p ≠ []) :
    (p ++ q).headD 0 = p.headD 0 := by
  cases p with
  | nil => exact absurd rfl hp
  | cons a t => rfl

theorem getD_one_append (p q : List Nat) (hp : 2 ≤ p.length) :
    (p ++ q).getD 1 0 = p.getD 1 0 := by
  cases p with
  | nil => simp at hp
  | cons a t =>
    cases t with
    | nil => simp at hp
    | cons b t2 => rfl

theorem prefix_headD (m p : List Nat) (hm : m ≠ []) (h : m <+: p) :
    p.headD 0 = m.headD 0 := by
  obtain ⟨t, rfl⟩ := h
  cases m with
  | nil => exact absurd rfl hm
  | cons a u => rfl

theorem detect_scalar_socks_append (p q : List Nat) (hp : p ≠ [])
    (hs : p.headD 0 = 5) : detect_scalar (p ++ q) = Protocol.Socks5 := by
  have hne : p ++ q ≠ [] := fun hc => hp (List.append_eq_nil.mp hc).1
  rw [detect_scalar, if_neg hne, headD_append_of_ne_nil p q hp, hs, if_pos rfl]

theorem detect_scalar_tls_append (p q : List Nat)
    (h3 : 3 ≤ p.length) (h16 : p.headD 0 = 22) (h1 : p.getD 1 0 = 3) :
    detect_scalar (p ++ q) = Protocol.Tls := by
  have hp : p ≠ [] := by intro hc; subst hc; simp at h3
  have hne : p ++ q ≠ [] := fun hc => hp (List.append_eq_nil.mp hc).1
  rw [detect_scalar, if_neg hne, headD_append_of_ne_nil p q hp, h16,
    getD_one_append p q (by omega), h1]
  rw [if_neg (by decide : ¬(22 : Nat) = 5)]
  rw [if_pos ⟨by rw [List.length_append]; omega, rfl, rfl⟩]

theorem detect_scalar_http_append (p q : List Nat)
    (hm : ∃ m ∈ httpMethods, m.length ≤ p.length ∧ m <+: p) :
    detect_scalar (p ++ q) = Protocol.Http := by
  obtain ⟨m, hmem, hlen, hpre⟩ := hm
  have hmne : m ≠ [] := by fin_cases hmem <;> decide
  have hp : p ≠ [] := by
    intro hc; subst hc; exact hmne (List.prefix_nil.mp hpre)
  have hne : p ++ q ≠ [] := fun hc => hp (List.append_eq_nil.mp hc).1
  have hhead : p.headD 0 = m.headD 0 := prefix_headD m p hmne hpre
  have hne5 : ¬ m.headD 0 = 5 := by fin_cases hmem <;> decide
  have hne22 : ¬ m.headD 0 = 22 := by fin_cases hmem <;> decide
  rw [detect_scalar, if_neg hne, headD_append_of_ne_nil p q hp, hhead]
  rw [if_neg hne5]
  rw [if_neg (fun hc => hne22 hc.2.1)]
  rw [if_pos ⟨m, hmem, by rw [List.length_append]; omega,
    hpre.trans (List.prefix_append p q)⟩]

theorem detect_scalar_proxy_append (p q : List Nat)
    (h6 : 6 ≤ p.length) (hpre : litStr "PROXY " <+: p) :
    detect_scalar (p ++ q) = Protocol.ProxyProtocol := by
  have hp : p ≠ [] := by intro hc; subst hc; simp at h6
  have hne : p ++ q ≠ [] := fun hc => hp (List.append_eq_nil.mp hc).1
  have hhead : p.headD 0 = 80 := by
    rw [prefix_headD (litStr "PROXY ") p (by decide) hpre]; decide
  have hproxy2 : litStr "PROXY " <+: p ++ q := hpre.trans (List.prefix_append p q)
  have hnohttp : ¬ ∃ m ∈ httpMethods, m.length ≤ (p ++ q).length ∧ m <+: p ++ q := by
    rintro ⟨m, hmem, -, hmp⟩
    rcases List.prefix_or_prefix_of_prefix hmp hproxy2 with hcase | hcase
    · fin_cases hmem <;> exact absurd hcase (by decide)
    · fin_cases hmem <;> exact absurd hcase (by decide)
  rw [detect_scalar, if_neg hne, headD_append_of_ne_nil p q hp, hhead]
  rw [if_neg (by decide : ¬(80 : Nat) = 5)]
  rw [if_neg (fun hc => absurd hc.2.1 (by decide))]
  rw [if_neg hnohttp]
  rw [if_pos ⟨by rw [List.length_append]; omega, hproxy2⟩]

theorem detect_scalar_http2_append (p q : List Nat)
    (h14 : 14 ≤ p.length) (hpre : litStr "PRI * HTTP/2.0" <+: p) :
    detect_scalar (p ++ q) = Protocol.Http2 := by
  have hp : p ≠ [] := by intro hc; subst hc; simp at h14
  have hne : p ++ q ≠ [] := fun hc => hp (List.append_eq_nil.mp hc).1
  have hhead : p.headD 0 = 80 := by
    rw [prefix_headD (litStr "PRI * HTTP/2.0") p (by decide) hpre]; decide
  have hh2 : litStr "PRI * HTTP/2.0" <+: p ++ q := hpre.trans (List.prefix_append p q)
  have hnohttp : ¬ ∃ m ∈ httpMethods, m.length ≤ (p ++ q).length ∧ m <+: p ++ q := by
    rintro ⟨m, hmem, -, hmp⟩
    rcases List.prefix_or_prefix_of_prefix hmp hh2 with hcase | hcase
    · fin_cases hmem <;> exact absurd hcase (by decide)
    · fin_cases hmem <;> exact absurd hcase (by decide)
  have hnoproxy : ¬ (6 ≤ (p ++ q).length ∧ litStr "PROXY " <+: p ++ q) := by
    rintro ⟨-, hc⟩
    rcases List.prefix_or_prefix_of_prefix hc hh2 with hcase | hcase
    · exact absurd hcase (by decide)
    · exact absurd hcase (by decide)
  rw [detect_scalar, if_neg hne, headD_append_of_ne_nil p q hp, hhead]
  rw [if_neg (by decide : ¬(80 : Nat) = 5)]
  rw [if_neg (fun hc => absurd hc.2.1 (by decide))]
  rw [if_neg hnohttp, if_neg hnoproxy]
  rw [if_pos ⟨by rw [List.length_append]; omega, hh2⟩]

theorem detect_scalar_monotone (p q : List Nat)
    (h : detect_scalar p ≠ Protocol.Unknown) :
    detect_scalar (p ++ q) = detect_scalar p := by
  by_cases hnil : p = []
  · exact absurd (by rw [detect_scalar, if_pos hnil]) h
  by_cases hs : p.headD 0 = 5
  · rw [show detect_scalar p = Protocol.Socks5 from by
      rw [detect_scalar, if_neg hnil, if_pos hs]]
    exact detect_scalar_socks_append p q hnil hs
  by_cases htls : 3 ≤ p.length ∧ p.headD 0 = 22 ∧ p.getD 1 0 = 3
  · rw [show detect_scalar p = Protocol.Tls from by
      rw [detect_scalar, if_neg hnil, if_neg hs, if_pos htls]]
    exact detect_scalar_tls_append p q htls.1 htls.2.1 htls.2.2
  by_cases hhttp : ∃ m ∈ httpMethods, m.length ≤ p.length ∧ m <+: p
  · rw [show detect_scalar p = Protocol.Http from by
      rw [detect_scalar, if_neg hnil, if_neg hs, if_neg htls, if_pos hhttp]]
    exact detect_scalar_http_append p q hhttp
  by_cases hproxy : 6 ≤ p.length ∧ litStr "PROXY " <+: p
  · rw [show detect_scalar p = Protocol.ProxyProtocol from by
      rw [detect_scalar, if_neg hnil, if_neg hs, if_neg htls, if_neg hhttp,
        if_pos hproxy]]
    exact detect_scalar_proxy_append p q hproxy.1 hproxy.2
  by_cases hh2 : 14 ≤ p.length ∧ litStr "PRI * HTTP/2.0" <+: p
  · rw [show detect_scalar p = Protocol.Http2 from by
      rw [detect_scalar, if_neg hnil, if_neg hs, if_neg htls, if_neg hhttp,
        if_neg hproxy, if_pos hh2]]
    exact detect_scalar_http2_append p q hh2.1 hh2.2
  · exact absurd (by
      rw [detect_scalar, if_neg hnil, if_neg hs, if_neg htls, if_neg hhttp,
        if_neg hproxy, if_neg hh2]) h

theorem detect_scalar_monotone_witness :
    detect_scalar (litStr "GET /") ≠ Protocol.Unknown ∧
    detect_scalar (litStr "GET /" ++ litStr "index.html") = detect_scalar (litStr "GET /") :=
  ⟨by decide, detect_scalar_monotone (litStr "GET /") (litStr "index.html") (by decide)⟩

theorem detect_protocol_simple_not_monotone :
    detect_protocol_simple (litStr "GET /x") ≠ "unknown" ∧
    litStr "GET /x /proxy.pac" = litStr "GET /x" ++ litStr " /proxy.pac" ∧
    detect_protocol_simple (litStr "GET /x /proxy.pac") ≠
      detect_protocol_simple (litStr "GET /x") := by
  refine ⟨?_, ?_, ?_⟩ <;> decide

theorem relayStep_finish (d : Bool) (st : RelayState)
    (h : (relayStep d st).2 = true) :
    sideDone (relayStep d st).1.a = true ∨ sideDone (relayStep d st).1.b = true := by
  cases d with
  | true =>
    by_cases ha : sideDone st.a = true
    · left; simp [relayStep, ha]
    · exfalso; simp [relayStep, ha] at h
  | false =>
    by_cases hb : sideDone st.b = true
    · right; simp [relayStep, hb]
    · exfalso; simp [relayStep, hb] at h

/-- C1 amended: once either copy future of `relay_streams` completes (EOF
or I/O error), the relay returns at once — the returned state always has
one finished direction, while the other may still hold undelivered data
(it is cancelled, with no write shutdown propagated). -/
theorem relay_streams_first_finish (sched : List Bool) (st fin : RelayState)
    (h : relay_streams sched st = some fin) :
    sideDone fin.a = true ∨ sideDone fin.b = true := by
  induction sched generalizing st with
  | nil => simp [relay_streams] at h
  | cons d rest ih =>
    rw [relay_streams] at h
    by_cases hfin : (relayStep d st).2 = true
    · rw [if_pos hfin] at h
      injection h with h2
      exact h2 ▸ relayStep_finish d st hfin
    · rw [if_neg hfin] at h
      exact ih _ h

/-- C1 witness: a concrete run in which the client→remote direction hits
EOF immediately and the relay returns. -/
theorem relay_streams_first_finish_witness :
    sideDone ({ a := ⟨[], []⟩, b := ⟨[CopyEvent.chunk [1]], []⟩ } : RelayState).a = true ∨
    sideDone ({ a := ⟨[], []⟩, b := ⟨[CopyEvent.chunk [1]], []⟩ } : RelayState).b = true :=
  relay_streams_first_finish [true]
    { a := ⟨[], []⟩, b := ⟨[CopyEvent.chunk [1]], []⟩ }
    { a := ⟨[], []⟩, b := ⟨[CopyEvent.chunk [1]], []⟩ } (by decide)

/-- C1 counterexample: with the a→b direction at EOF and a chunk still
pending on b→a, one poll of the `select!` returns the relay even though
the b→a direction has not finished — its chunk is never delivered. -/
theorem relay_select_returns_early :
    relay_streams [true] { a := ⟨[], []⟩, b := ⟨[CopyEvent.chunk [1]], []⟩ }
      = some { a := ⟨[], []⟩, b := ⟨[CopyEvent.chunk [1]], []⟩ } ∧
    sideDone (⟨[CopyEvent.chunk [1]], []⟩ : RelaySide) = false ∧
    (⟨[CopyEvent.chunk [1]], []⟩ : RelaySide).delivered = [] := by
  refine ⟨by decide, by decide, by decide⟩

/-- C3 counterexample: a CONNECT for 127.0.0.1:80 whose dial fails with
`ConnectionRefused` is answered with `REP = 0x01`, not the `0x05` the
claim requires. -/
theorem socks5_rep_code_counterexample :
    (handle_socks5 [5, 1, 0, 5, 1, 0, 1, 127, 0, 0, 1, 0, 80]
        (fun _ => Except.error IoErrKind.connRefused)).writes
      = [[5, 0], [5, 1, 0, 1, 0, 0, 0, 0, 0, 0]] := by decide

/-- C3 amended: for every IPv4 CONNECT request and every failure cause of
the upstream dial, the handler replies with the fixed general-failure
reply `05 01 00 01 0.0.0.0:0` — the REP byte is 0x01 regardless of the
cause — and closes (no relay), returning the dial error. -/
theorem socks5_dial_failure_rep (e : IoErrKind) (a b c d p1 p2 : Nat) :
    handle_socks5 ([5, 1, 0, 5, 1, 0, 1] ++ [a, b, c, d, p1, p2])
        (fun _ => Except.error e)
      = { writes := [[5, 0], [5, 1, 0, 1, 0, 0, 0, 0, 0, 0]], upWrites := [],
          dials := [natDecimal a ++ [46] ++ natDecimal b ++ [46] ++ natDecimal c
            ++ [46] ++ natDecimal d ++ [58] ++ natDecimal (p1 * 256 + p2)],
          relayed := false, result := RunResult.err e } := by
  rfl

/-- C5: evaluation of `handle_connection` at the failing input — a
connection whose `peer_addr` lookup fails, on a channel with no active
connections.  The handler exits on the error path with `connections`
left at 1, though no handler is running any more; the success path does
return it to 0. -/
theorem handle_connection_error_leak :
    (handle_connection ⟨true, 0, 0, 0, 0⟩ false).1.connections = 1 ∧
    (handle_connection ⟨true, 0, 0, 0, 0⟩ false).2 = false ∧
    (handle_connection ⟨true, 0, 0, 0, 0⟩ true).1.connections = 0 := by
  refine ⟨by decide, by decide, by decide⟩



theorem readExact_append (n : Nat) (xs ys : List Nat) (h : xs.length = n) :
    readExact n (xs ++ ys) = some (xs, ys) := by
  subst h
  unfold readExact
  rw [if_pos (by simp), List.take_left, List.drop_left]

theorem getD_zero (a : Nat) (t : List Nat) : (a :: t).getD 0 0 = a := rfl

theorem getD_one (a b : Nat) (t : List Nat) : (a :: b :: t).getD 1 0 = b := rfl

theorem getD_three (a b c d : Nat) (t : List Nat) :
    (a :: b :: c :: d :: t).getD 3 0 = d := rfl

theorem readExact_two (a b : Nat) (t : List Nat) :
    readExact 2 (a :: b :: t) = some ([a, b], t) :=
  readExact_append 2 [a, b] t rfl

theorem readExact_one (a : Nat) (t : List Nat) :
    readExact 1 (a :: t) = some ([a], t) :=
  readExact_append 1 [a] t rfl

theorem readExact_four (a b c d : Nat) (t : List Nat) :
    readExact 4 (a :: b :: c :: d :: t) = some ([a, b, c, d], t) :=
  readExact_append 4 [a, b, c, d] t rfl

/-- C7 counterexample: on `ATYP = 0x02` the handler closes with
`InvalidInput` having written only the method-selection reply `05 00` —
no `REP = 0x08` reply is ever sent. -/
theorem socks5_bad_atyp_no_reply :
    handle_socks5 [5, 1, 0, 5, 1, 0, 2]
        (fun _ => Except.error IoErrKind.otherErr)
      = { writes := [[5, 0]], upWrites := [], dials := [], relayed := false,
          result := RunResult.err IoErrKind.invalidInput } := by decide

/-- C7 amended: (1) methods without 0x00 draw exactly `05 FF` and close;
(2) a request whose CMD is not 0x01 draws the REP=0x07 reply and closes;
(3) a request whose ATYP is none of 0x01/0x03/0x04 closes with
`InvalidInput` after only the `05 00` method reply — no 0x08 reply. -/
theorem socks5_error_replies :
    (∀ (nm : Nat) (methods rest : List Nat) (dial : DialOracle),
      methods.length = nm → ¬ 0 ∈ methods →
      handle_socks5 ([5, nm] ++ methods ++ rest) dial
        = { writes := [[5, 0xFF]], upWrites := [], dials := [], relayed := false,
            result := RunResult.err IoErrKind.invalidData }) ∧
    (∀ (cmd rsv atyp : Nat) (rest : List Nat) (dial : DialOracle),
      cmd ≠ 1 →
      handle_socks5 (5 :: 1 :: 0 :: 5 :: cmd :: rsv :: atyp :: rest) dial
        = { writes := [[5, 0], [5, 7, 0, 1, 0, 0, 0, 0, 0, 0]], upWrites := [],
            dials := [], relayed := false,
            result := RunResult.err IoErrKind.invalidData }) ∧
    (∀ (atyp : Nat) (rest : List Nat) (dial : DialOracle),
      atyp ≠ 1 → atyp ≠ 3 → atyp ≠ 4 →
      handle_socks5 (5 :: 1 :: 0 :: 5 :: 1 :: 0 :: atyp :: rest) dial
        = { writes := [[5, 0]], upWrites := [], dials := [], relayed := false,
            result := RunResult.err IoErrKind.invalidInput }) := by
  refine ⟨?_, ?_, ?_⟩
  · intro nm methods rest dial hlen h0
    simp only [handle_socks5, List.cons_append, List.nil_append, readExact_two,
      getD_zero, getD_one]
    rw [readExact_append nm methods rest hlen]
    simp [h0, noEffects]
  · intro cmd rsv atyp rest dial hcmd
    simp only [handle_socks5, readExact_two, readExact_one, readExact_four,
      getD_zero, getD_one]
    simp [hcmd, noEffects]
  · intro atyp rest dial h1 h3 h4
    simp only [handle_socks5, readExact_two, readExact_one, readExact_four,
      getD_zero, getD_one, getD_three, read_socks_address]
    simp [h1, h3, h4, noEffects]

/-- C7 witness: the three error paths at concrete inputs. -/
theorem socks5_error_replies_witness :
    (handle_socks5 [5, 1, 2] (fun _ => Except.error IoErrKind.otherErr)).writes
        = [[5, 0xFF]] ∧
    (handle_socks5 [5, 1, 0, 5, 2, 0, 1] (fun _ => Except.error IoErrKind.otherErr)).writes
        = [[5, 0], [5, 7, 0, 1, 0, 0, 0, 0, 0, 0]] ∧
    (handle_socks5 [5, 1, 0, 5, 1, 0, 9] (fun _ => Except.error IoErrKind.otherErr)).writes
        = [[5, 0]] := by
  refine ⟨?_, ?_, ?_⟩
  · exact congrArg Effects.writes (socks5_error_replies.1 1 [2] [] _ rfl (by decide))
  · exact congrArg Effects.writes (socks5_error_replies.2.1 2 0 1 [] _ (by decide))
  · exact congrArg Effects.writes
      (socks5_error_replies.2.2 9 [] _ (by decide) (by decide) (by decide))



theorem rsplit_once_eq_none (sep : Nat) (s : List Nat) (h : ¬ sep ∈ s) :
    rsplit_once sep s = none := by
  induction s with
  | nil => rfl
  | cons c t ih =>
    rw [rsplit_once, ih (fun hc => h (List.mem_cons_of_mem c hc))]
    exact if_neg (fun hc => h (by rw [← hc]; exact List.mem_cons_self c t))

/-- C9 amended: behaviour of `connect_to_target`: (1) a target without a
colon fails with `InvalidInput`; (2) a port that does not parse as `u16`
fails with `InvalidInput`; (3) a non-literal host whose resolution returns
no addresses fails with `NotFound`; (4) with addresses returned, the first
is dialled together with the parsed port; (5) the resolver's latency never
influences the result — name resolution is under no deadline; (6) the
5-second deadline applies to the TCP connect attempt, whose expiry yields
`TimedOut`. -/
theorem connect_to_target_spec :
    (∀ (env : DnsEnv) (target : List Nat), ¬ 58 ∈ target →
      connect_to_target env target = Except.error IoErrKind.invalidInput) ∧
    (∀ (env : DnsEnv) (target host portStr : List Nat),
      rsplit_once 58 target = some (host, portStr) → parseU16 portStr = none →
      connect_to_target env target = Except.error IoErrKind.invalidInput) ∧
    (∀ (env : DnsEnv) (target host portStr : List Nat) (port : Nat),
      rsplit_once 58 target = some (host, portStr) →
      parseU16 portStr = some port → parseIpAddr host = none →
      env.lookup (host ++ litStr ":80") = Except.ok [] →
      connect_to_target env target = Except.error IoErrKind.notFound) ∧
    (∀ (env : DnsEnv) (target host portStr : List Nat) (port : Nat)
        (ip : IpAddr) (more : List IpAddr),
      rsplit_once 58 target = some (host, portStr) →
      parseU16 portStr = some port → parseIpAddr host = none →
      env.lookup (host ++ litStr ":80") = Except.ok (ip :: more) →
      env.connectMs ip port ≤ 5000 →
      connect_to_target env target =
        (match env.connect ip port with
         | Except.ok _ => Except.ok (ip, port)
         | Except.error e => Except.error e)) ∧
    (∀ (msA msB : List Nat → Nat) (env : DnsEnv) (target : List Nat),
      connect_to_target { env with lookupMs := msA } target
        = connect_to_target { env with lookupMs := msB } target) ∧
    (∀ (env : DnsEnv) (target host portStr : List Nat) (port : Nat) (ip : IpAddr),
      rsplit_once 58 target = some (host, portStr) →
      parseU16 portStr = some port → parseIpAddr host = some ip →
      5000 < env.connectMs ip port →
      connect_to_target env target = Except.error IoErrKind.timedOut) := by
  refine ⟨?_, ?_, ?_, ?_, ?_, ?_⟩
  · intro env target h
    simp only [connect_to_target, rsplit_once_eq_none 58 target h]
  · intro env target host portStr hsplit hport
    simp only [connect_to_target, hsplit, hport]
  · intro env target host portStr port hsplit hport hip hlookup
    simp only [connect_to_target, hsplit, hport, hip, hlookup, List.head?]
  · intro env target host portStr port ip more hsplit hport hip hlookup hms
    simp only [connect_to_target, hsplit, hport, hip, hlookup, List.head?]
    rw [if_neg (by omega)]
  · intro msA msB env target
    rfl
  · intro env target host portStr port ip hsplit hport hip hms
    simp only [connect_to_target, hsplit, hport, hip]
    rw [if_pos hms]

/-- C9 witness: concrete instantiations of parts (1), (3) and (6). -/
theorem connect_to_target_spec_witness :
    connect_to_target
        { lookup := fun _ => Except.ok [], lookupMs := fun _ => 0,
          connect := fun _ _ => Except.ok (), connectMs := fun _ _ => 0 }
        (litStr "nocolon") = Except.error IoErrKind.invalidInput ∧
    connect_to_target
        { lookup := fun _ => Except.ok [], lookupMs := fun _ => 0,
          connect := fun _ _ => Except.ok (), connectMs := fun _ _ => 0 }
        (litStr "example.com:443") = Except.error IoErrKind.notFound ∧
    connect_to_target
        { lookup := fun _ => Except.ok [], lookupMs := fun _ => 0,
          connect := fun _ _ => Except.ok (), connectMs := fun _ _ => 6000 }
        (litStr "10.0.0.1:80") = Except.error IoErrKind.timedOut := by
  refine ⟨?_, ?_, ?_⟩
  · exact connect_to_target_spec.1 _ (litStr "nocolon") (by decide)
  · exact connect_to_target_spec.2.2.1 _ (litStr "example.com:443")
      (litStr "example.com") (litStr "443") 443 (by decide) (by decide)
      (by decide) rfl
  · exact connect_to_target_spec.2.2.2.2.2 _ (litStr "10.0.0.1:80")
      (litStr "10.0.0.1") (litStr "80") 80 (IpAddr.v4 [10, 0, 0, 1])
      (by decide) (by decide) (by decide) (by decide)

/-- C9 counterexample: an environment whose name resolution takes 60
seconds — far beyond the claimed 5-second resolution deadline — still
returns the connected stream rather than `TimedOut`: the timeout wraps
only the TCP connect, not `lookup_host`. -/
theorem resolution_no_deadline_counterexample :
    connect_to_target
        { lookup := fun _ => Except.ok [IpAddr.v4 [93, 184, 216, 34]],
          lookupMs := fun _ => 60000,
          connect := fun _ _ => Except.ok (), connectMs := fun _ _ => 10 }
        (litStr "example.com:443")
      = Except.ok (IpAddr.v4 [93, 184, 216, 34], 443) := by
  rfl

/-- C10 amended: the TLS close branch really runs only for a peeked
prefix that is not valid UTF-8 (besides beginning `16 03` with length at
least 3); then the handler writes nothing, dials nothing, relays nothing
and returns `Ok`. -/
theorem tls_branch_closes (input : List Nat) (dial : DialOracle)
    (h3 : 3 ≤ (input.take 64).length)
    (h16 : (input.take 64).headD 0 = 0x16)
    (h03 : (input.take 64).getD 1 0 = 3)
    (hbad : utf8DecodeOpt (input.take 64) = none) :
    handle_universal_connection input dial = noEffects := by
  have hlen : ¬ (input.take 64).length = 0 := by omega
  have hsock : ¬ (2 ≤ (input.take 64).length ∧ (input.take 64).headD 0 = 5) := by
    rintro ⟨-, h5⟩
    rw [h16] at h5
    exact absurd h5 (by decide)
  simp only [handle_universal_connection, hbad]
  rw [if_neg hlen, if_neg hsock, if_pos ⟨h3, h16, h03⟩]

/-- C10 witness: a four-byte prefix `16 03 03 FF` (not UTF-8) is closed
with no effects. -/
theorem tls_branch_closes_witness :
    handle_universal_connection [0x16, 0x03, 0x03, 0xFF]
      (fun _ => Except.error IoErrKind.otherErr) = noEffects :=
  tls_branch_closes [0x16, 0x03, 0x03, 0xFF] _ (by decide) (by decide)
    (by decide) (by decide)

/-- C10 counterexample: a connection whose peeked prefix begins
`16 03` but happens to be valid UTF-8 text containing a `host:` line is
not closed: it falls through to the HTTP handler, which dials upstream
`x:80` and relays. -/
theorem tls_prefix_dialed_counterexample :
    ([0x16, 0x03, 0x01] ++ litStr "\x0d\x0ahost: x\x0d\x0a\x0d\x0a").take 2
        = [0x16, 0x03] ∧
    (handle_universal_connection
        ([0x16, 0x03, 0x01] ++ litStr "\x0d\x0ahost: x\x0d\x0a\x0d\x0a")
        (fun _ => Except.ok (LocalAddr.v4 [127, 0, 0, 1] 1))).dials
        = [litStr "x:80"] ∧
    (handle_universal_connection
        ([0x16, 0x03, 0x01] ++ litStr "\x0d\x0ahost: x\x0d\x0a\x0d\x0a")
        (fun _ => Except.ok (LocalAddr.v4 [127, 0, 0, 1] 1))).relayed = true := by
  refine ⟨by decide, by decide, by decide⟩



theorem utf8DecodeAux_ascii (fuel : Nat) :
    ∀ l : List Nat, l.length ≤ fuel → (∀ b ∈ l, b < 128) →
      utf8DecodeAux fuel l = some l := by
  induction fuel with
  | zero =>
    intro l hl _
    cases l with
    | nil => rfl
    | cons b t => simp at hl
  | succ fuel ih =>
    intro l hl h
    cases l with
    | nil => rfl
    | cons b t =>
      have ht : t.length ≤ fuel := by
        simp only [List.length_cons] at hl
        omega
      rw [utf8DecodeAux, if_pos (h b (List.mem_cons_self b t)),
        ih t ht (fun x hx => h x (List.mem_cons_of_mem b hx))]
      rfl

theorem utf8DecodeOpt_ascii (l : List Nat) (h : ∀ b ∈ l, b < 128) :
    utf8DecodeOpt l = some l :=
  utf8DecodeAux_ascii l.length l le_rfl h

theorem splitWsAux_word (w : List Nat) (b : Nat) (t : List Nat)
    (hw : ∀ d ∈ w, isRustWs d = false) (hb : isRustWs b = true) :
    ∀ acc : List Nat, w ≠ [] ∨ acc ≠ [] →
      splitWsAux (w ++ b :: t) acc = (acc.reverse ++ w) :: splitWsAux t [] := by
  induction w with
  | nil =>
    intro acc hne
    have hacc : acc ≠ [] := hne.resolve_left (fun hc => hc rfl)
    rw [List.nil_append, splitWsAux, if_pos hb, if_neg hacc]
    simp
  | cons a w ih =>
    intro acc hne
    have ha : isRustWs a = false := hw a (List.mem_cons_self a w)
    rw [List.cons_append, splitWsAux, if_neg (by simp [ha])]
    rw [ih (fun d hd => hw d (List.mem_cons_of_mem a hd)) (a :: acc)
      (Or.inr (by simp))]
    simp [List.reverse_cons, List.append_assoc]

theorem splitWs_connect (host rest : List Nat) (hhost : host ≠ [])
    (hws : ∀ d ∈ host, isRustWs d = false) :
    splitWs (litStr "CONNECT " ++ host ++ 32 :: rest)
      = litStr "CONNECT" :: host :: splitWs rest := by
  have h1 : litStr "CONNECT " ++ host ++ 32 :: rest
      = litStr "CONNECT" ++ 32 :: (host ++ 32 :: rest) := by
    rw [show litStr "CONNECT " = litStr "CONNECT" ++ [32] from by decide]
    simp [List.append_assoc]
  unfold splitWs
  rw [h1]
  rw [splitWsAux_word (litStr "CONNECT") 32 (host ++ 32 :: rest)
    (by decide) (by decide) [] (Or.inl (by decide))]
  rw [splitWsAux_word host 32 rest hws (by decide) [] (Or.inl hhost)]
  simp

theorem getD_one_words (a b : List Nat) (t : List (List Nat)) :
    (a :: b :: t).getD 1 [] = b := rfl

/-- Core behaviour of `handle_http` on a CONNECT request whose first
4 KiB read is `CONNECT <host> <rest>` with an ASCII, whitespace-free,
non-empty host: the dialled target is `host`, with `:443` appended when
`host` has no colon; success writes exactly the 200 line and relays,
failure writes exactly the 502 line and closes. -/
theorem handle_http_connect_core (input host rest : List Nat) (dial : DialOracle)
    (htake : input.take 4096 = litStr "CONNECT " ++ host ++ 32 :: rest)
    (hhost : host ≠ []) (hws : ∀ d ∈ host, isRustWs d = false)
    (hascii : ∀ b ∈ host, b < 128) (hrascii : ∀ b ∈ rest, b < 128) :
    handle_http input dial
      = (match dial (if 58 ∈ host then host else host ++ litStr ":443") with
         | Except.ok _ =>
           { writes := [litStr "HTTP/1.1 200 Connection established\x0d\x0a\x0d\x0a"],
             upWrites := [],
             dials := [if 58 ∈ host then host else host ++ litStr ":443"],
             relayed := true, result := RunResult.ok }
         | Except.error _ =>
           { writes := [litStr "HTTP/1.1 502 Bad Gateway\x0d\x0a\x0d\x0a"],
             upWrites := [],
             dials := [if 58 ∈ host then host else host ++ litStr ":443"],
             relayed := false, result := RunResult.ok }) := by
  have hreqascii : ∀ b ∈ litStr "CONNECT " ++ host ++ 32 :: rest, b < 128 := by
    intro b hb
    simp only [List.mem_append, List.mem_cons] at hb
    rcases hb with (hb | hb) | (hb | hb)
    · exact (show ∀ x ∈ litStr "CONNECT ", x < 128 by decide) b hb
    · exact hascii b hb
    · omega
    · exact hrascii b hb

  have hdecode := utf8DecodeOpt_ascii _ hreqascii
  have hnonnil : ¬ (litStr "CONNECT " ++ host ++ 32 :: rest) = [] := by
    simp [litStr]
  have hprefix : litStr "CONNECT " <+: litStr "CONNECT " ++ host ++ 32 :: rest :=
    ⟨host ++ 32 :: rest, by simp [List.append_assoc]⟩
  cases host with
  | nil => exact absurd rfl hhost
  | cons h0 ht =>
    simp only [handle_http, htake, hdecode, Option.getD_some]
    rw [if_neg hnonnil, if_pos hprefix]
    rw [splitWs_connect (h0 :: ht) rest hhost hws, getD_one_words]


/-- C4: behaviour of `handle_http` on a well-formed CONNECT request that
fits the 4 KiB read: the dialled target defaults to port 443 exactly when
the CONNECT target has no colon; a successful dial draws exactly the
`200 Connection established` response followed by the relay; a failed
dial draws exactly the `502 Bad Gateway` response and the handler returns
(closing the connection). -/
theorem http_connect_behavior (host rest : List Nat) (dial : DialOracle)
    (hhost : host ≠ []) (hws : ∀ d ∈ host, isRustWs d = false)
    (hascii : ∀ b ∈ host, b < 128) (hrascii : ∀ b ∈ rest, b < 128)
    (hlen : (litStr "CONNECT " ++ host ++ 32 :: rest).length ≤ 4096) :
    handle_http (litStr "CONNECT " ++ host ++ 32 :: rest) dial
      = (match dial (if 58 ∈ host then host else host ++ litStr ":443") with
         | Except.ok _ =>
           { writes := [litStr "HTTP/1.1 200 Connection established\x0d\x0a\x0d\x0a"],
             upWrites := [],
             dials := [if 58 ∈ host then host else host ++ litStr ":443"],
             relayed := true, result := RunResult.ok }
         | Except.error _ =>
           { writes := [litStr "HTTP/1.1 502 Bad Gateway\x0d\x0a\x0d\x0a"],
             upWrites := [],
             dials := [if 58 ∈ host then host else host ++ litStr ":443"],
             relayed := false, result := RunResult.ok }) :=
  handle_http_connect_core _ host rest dial (List.take_of_length_le hlen)
    hhost hws hascii hrascii

/-- C4 witness: `CONNECT example.com HTTP/1.1` with a refused dial draws
exactly the 502 response, the dialled target defaulting to port 443. -/
theorem http_connect_behavior_witness :
    handle_http (litStr "CONNECT " ++ litStr "example.com" ++ 32 :: litStr "HTTP/1.1")
        (fun _ => Except.error IoErrKind.connRefused)
      = { writes := [litStr "HTTP/1.1 502 Bad Gateway\x0d\x0a\x0d\x0a"],
          upWrites := [], dials := [litStr "example.com:443"],
          relayed := false, result := RunResult.ok } := by
  rw [http_connect_behavior (litStr "example.com") (litStr "HTTP/1.1") _
    (by decide) (by decide) (by decide) (by decide) (by decide)]
  decide

theorem longReq_head_length :
    (litStr "CONNECT " ++ litStr "x:80"
      ++ 32 :: (litStr "HTTP/1.1\x0d\x0aX: " ++ List.replicate 4070 97)).length
      = 4096 := by
  simp only [List.length_append, List.length_cons, List.length_replicate,
    show (litStr "CONNECT ").length = 8 from by decide,
    show (litStr "x:80").length = 4 from by decide,
    show (litStr "HTTP/1.1\x0d\x0aX: ").length = 13 from by decide]

theorem longReq_take :
    longReq.take 4096
      = litStr "CONNECT " ++ litStr "x:80"
          ++ 32 :: (litStr "HTTP/1.1\x0d\x0aX: " ++ List.replicate 4070 97) := by
  rw [longReq, List.take_left' longReq_head_length]

/-- C6 counterexample: a CONNECT request whose header section is 4110
bytes — beyond the 4 KiB read — is not answered with `400 Bad Request`:
the handler processes the truncated read and (here, with the dial
failing) answers `502 Bad Gateway`. -/
theorem http_oversize_no_400 :
    4096 < longReq.length ∧
    (handle_http longReq (fun _ => Except.error IoErrKind.otherErr)).writes
      = [litStr "HTTP/1.1 502 Bad Gateway\x0d\x0a\x0d\x0a"] ∧
    ¬ litStr "400" <:+: litStr "HTTP/1.1 502 Bad Gateway\x0d\x0a\x0d\x0a" := by
  have hrest : ∀ b ∈ litStr "HTTP/1.1\x0d\x0aX: " ++ List.replicate 4070 97, b < 128 := by
    intro b hb
    rcases List.mem_append.mp hb with hb | hb
    · exact (show ∀ x ∈ litStr "HTTP/1.1\x0d\x0aX: ", x < 128 by decide) b hb
    · rw [List.eq_of_mem_replicate hb]; decide
  refine ⟨?_, ?_, by decide⟩
  · have h2 : (litStr "\x0d\x0a\x0d\x0a").length = 4 := by decide
    rw [longReq, List.length_append, longReq_head_length]
    simp only [List.length_append, List.length_replicate, h2]
    omega
  · rw [handle_http_connect_core longReq (litStr "x:80")
      (litStr "HTTP/1.1\x0d\x0aX: " ++ List.replicate 4070 97) _
      longReq_take (by decide) (by decide) (by decide) hrest]

/-- C6 amended: the only responses `handle_http` ever writes to the
client are the 200 and 502 lines; in particular no over-long request is
answered with `400 Bad Request`. -/
theorem handle_http_writes (input : List Nat) (dial : DialOracle) (w : List Nat)
    (hw : w ∈ (handle_http input dial).writes) :
    w = litStr "HTTP/1.1 200 Connection established\x0d\x0a\x0d\x0a" ∨
    w = litStr "HTTP/1.1 502 Bad Gateway\x0d\x0a\x0d\x0a" := by
  simp only [handle_http] at hw
  split at hw
  · simp [noEffects] at hw
  · split at hw
    · split at hw
      · simp [noEffects] at hw
      · split at hw
        · left; simpa using hw
        · right; simpa using hw
    · split at hw
      · split at hw
        · simp [noEffects] at hw
        · split at hw
          · simp at hw
          · simp at hw
      · simp [noEffects] at hw

/-- C6 witness: concrete membership in the write set of a failed CONNECT. -/
theorem handle_http_writes_witness :
    litStr "HTTP/1.1 502 Bad Gateway\x0d\x0a\x0d\x0a"
        = litStr "HTTP/1.1 200 Connection established\x0d\x0a\x0d\x0a" ∨
    litStr "HTTP/1.1 502 Bad Gateway\x0d\x0a\x0d\x0a"
        = litStr "HTTP/1.1 502 Bad Gateway\x0d\x0a\x0d\x0a" :=
  handle_http_writes (litStr "CONNECT x HTTP/1.1")
    (fun _ => Except.error IoErrKind.otherErr) _ (by decide)

/-- C8 counterexample: `TRACE /proxy.pac HTTP/1.1` has request target
`/proxy.pac` (its second whitespace-separated token), yet the universal
handler writes nothing at all — TRACE is not in the recognized method
list, so the request falls through to the HTTP handler, which serves no
PAC. -/
theorem pac_trace_counterexample :
    (splitWs (litStr "TRACE /proxy.pac HTTP/1.1\x0d\x0a\x0d\x0a")).getD 1 []
      = litStr "/proxy.pac" ∧
    handle_universal_connection (litStr "TRACE /proxy.pac HTTP/1.1\x0d\x0a\x0d\x0a")
      (fun _ => Except.error IoErrKind.otherErr) = noEffects := by
  exact ⟨by decide, by decide⟩

/-- C8 amended: an ASCII peeked window that starts with one of the eight
recognized methods and contains `/proxy.pac` or `/wpad.dat` is answered
with exactly the PAC response — 200 OK with the `Content-Type` and
`Cache-Control` headers and the PAC body routing through the proxy with
DIRECT fallback for RFC 1918 and loopback — and the handler then
returns, closing the connection. -/
theorem pac_served_on_detected_http (input : List Nat) (dial : DialOracle)
    (hascii : ∀ b ∈ input.take 64, b < 128)
    (hmethod : ∃ m ∈ httpMethods, m <+: input.take 64)
    (hpac : litStr "/proxy.pac" <:+: input.take 64 ∨
      litStr "/wpad.dat" <:+: input.take 64) :
    handle_universal_connection input dial = serve_simple_pac ∧
    serve_simple_pac.writes = [pacResponse] ∧
    serve_simple_pac.relayed = false ∧
    serve_simple_pac.result = RunResult.ok ∧
    litStr "HTTP/1.1 200 OK\x0d\x0a" <+: pacResponse ∧
    litStr "Content-Type: application/x-ns-proxy-autoconfig\x0d\x0a" <:+: pacResponse ∧
    litStr "Cache-Control: max-age=3600\x0d\x0a" <:+: pacResponse ∧
    litStr "return \"PROXY 127.0.0.1:8080; SOCKS5 127.0.0.1:1080; DIRECT\";" <:+: pacResponse ∧
    litStr "isInNet(host, \"192.168.0.0\", \"255.255.0.0\")" <:+: pacResponse ∧
    litStr "isInNet(host, \"127.0.0.0\", \"255.0.0.0\")" <:+: pacResponse := by
  refine ⟨?_, rfl, rfl, rfl, by decide, by decide, by decide, by decide,
    by decide, by decide⟩
  obtain ⟨m, hmem, hpre⟩ := hmethod
  have hmne : m ≠ [] := by fin_cases hmem <;> decide
  have hhead : (input.take 64).headD 0 = m.headD 0 := prefix_headD m _ hmne hpre
  have hh5 : ¬ (input.take 64).headD 0 = 5 := by
    rw [hhead]; fin_cases hmem <;> decide
  have hlen0 : ¬ (input.take 64).length = 0 := by
    have h1 : 0 < m.length := List.length_pos.mpr hmne
    have h2 := hpre.length_le
    omega
  have hdecode := utf8DecodeOpt_ascii _ hascii
  simp only [handle_universal_connection, hdecode]
  rw [if_neg hlen0, if_neg (fun hc => hh5 hc.2), if_pos ⟨m, hmem, hpre⟩]
  rcases hpac with hp | hwp
  · rw [if_pos hp]
  · by_cases hp : litStr "/proxy.pac" <:+: input.take 64
    · rw [if_pos hp]
    · rw [if_neg hp, if_pos hwp]

/-- C8 witness: `GET /proxy.pac HTTP/1.1` is served the PAC response. -/
theorem pac_served_witness :
    handle_universal_connection (litStr "GET /proxy.pac HTTP/1.1\x0d\x0a\x0d\x0a")
        (fun _ => Except.error IoErrKind.otherErr) = serve_simple_pac ∧
    serve_simple_pac.writes = [pacResponse] ∧
    serve_simple_pac.relayed = false ∧
    serve_simple_pac.result = RunResult.ok ∧
    litStr "HTTP/1.1 200 OK\x0d\x0a" <+: pacResponse ∧
    litStr "Content-Type: application/x-ns-proxy-autoconfig\x0d\x0a" <:+: pacResponse ∧
    litStr "Cache-Control: max-age=3600\x0d\x0a" <:+: pacResponse ∧
    litStr "return \"PROXY 127.0.0.1:8080; SOCKS5 127.0.0.1:1080; DIRECT\";" <:+: pacResponse ∧
    litStr "isInNet(host, \"192.168.0.0\", \"255.255.0.0\")" <:+: pacResponse ∧
    litStr "isInNet(host, \"127.0.0.0\", \"255.0.0.0\")" <:+: pacResponse :=
  pac_served_on_detected_http (litStr "GET /proxy.pac HTTP/1.1\x0d\x0a\x0d\x0a")
    (fun _ => Except.error IoErrKind.otherErr) (by decide) (by decide)
    (Or.inl (by decide))

end LiteBike
